import Mathlib

/-!
Verification development for the ssr RAID-1 block driver (src/ssr.c).

The driver exposes one logical block device backed by two physical devices
(vdb and vdc).  This file gives a shallow embedding of the driver code:
byte buffers are lists of naturals, pages live in an explicit page store,
bios carry their segment lists, and the request pipeline
(ssr_submit_bio, the single-threaded workqueue handler ssr_handle_requests,
process_device, submit_bio_wait) is translated function by function.
-/

/-- Byte buffers (page contents, whole-device contents) as lists of naturals. -/
abbrev Bytes := List Nat

/-! ## Checksum engine

The driver calls the kernel library function crc32(seed, buf, len), which is
crc32_le: least-significant-bit-first CRC-32 with polynomial CRC32_POLY_LE,
the seed passed through, and no final xor.  Modelled from the spec
(section 4.2: CRC-32 over the buffer, seed value 0, no finalization XOR) and
the kernel library loop, since lib/crc32.c is outside this repository. -/

/-- The reflected CRC-32 polynomial CRC32_POLY_LE. -/
def CRC32_POLY_LE : Nat := 0xEDB88320

/-- One feedback step of crc32_le:
crc = (crc >> 1) ^ ((crc & 1) ? CRC32_POLY_LE : 0). -/
def crcShift (c : Nat) : Nat :=
  (c >>> 1) ^^^ (if c &&& 1 = 1 then CRC32_POLY_LE else 0)

/-- One byte of crc32_le: crc ^= byte, then eight feedback steps. -/
def crcByte (c b : Nat) : Nat :=
  crcShift (crcShift (crcShift (crcShift (crcShift (crcShift (crcShift (crcShift (c ^^^ b))))))))

/-- crc32(seed, buf, len) over the whole buffer. -/
def crc32 (seed : Nat) (buf : Bytes) : Nat := buf.foldl crcByte seed

/-- Modelled from the spec (section 4.2): verify recomputes the checksum and
compares for equality. -/
def verify (buf : Bytes) (c : Nat) : Bool := crc32 0 buf == c

/-- Flip bit i of a byte buffer: xor byte i/8 with 1 <<< (i % 8). -/
def flipBit (i : Nat) (buf : Bytes) : Bytes :=
  buf.set (i / 8) (buf.getD (i / 8) 0 ^^^ (1 <<< (i % 8)))

/-! ### CRC-32 lemmas: linearity over xor, and nonzero error propagation. -/

lemma xor_shiftRight_one (a b : Nat) : (a ^^^ b) >>> 1 = a >>> 1 ^^^ b >>> 1 := by
  apply Nat.eq_of_testBit_eq
  intro i
  simp [Nat.testBit_shiftRight, Nat.testBit_xor]

lemma poly_ite_testBit (c : Nat) :
    (if c &&& 1 = 1 then CRC32_POLY_LE else 0) =
      (if c.testBit 0 = true then CRC32_POLY_LE else 0) := by
  rw [Nat.and_one_is_mod, Nat.testBit_zero]
  by_cases h : c % 2 = 1 <;> simp [h]

lemma nat_xor_left_comm (a b c : Nat) : a ^^^ (b ^^^ c) = b ^^^ (a ^^^ c) := by
  rw [← Nat.xor_assoc, Nat.xor_comm a b, Nat.xor_assoc]

lemma xor4_rearrange (w x y z : Nat) : (w ^^^ x) ^^^ (y ^^^ z) = (w ^^^ y) ^^^ (x ^^^ z) := by
  rw [Nat.xor_assoc, Nat.xor_assoc, nat_xor_left_comm x y z]

lemma nat_xor_self_cancel (a b : Nat) : a ^^^ (a ^^^ b) = b := by
  rw [← Nat.xor_assoc, Nat.xor_self, Nat.zero_xor]

/-- crcShift distributes over xor: the feedback step is GF(2)-linear. -/
lemma crcShift_linear (a b : Nat) : crcShift (a ^^^ b) = crcShift a ^^^ crcShift b := by
  unfold crcShift
  rw [poly_ite_testBit (a ^^^ b), poly_ite_testBit a, poly_ite_testBit b,
    xor_shiftRight_one, Nat.testBit_xor]
  cases hA : a.testBit 0 <;> cases hB : b.testBit 0 <;>
    simp [Nat.xor_self, Nat.xor_zero, Nat.zero_xor, Nat.xor_assoc, Nat.xor_comm,
      nat_xor_left_comm, nat_xor_self_cancel]

/-- crcByte distributes over xor of both the state and the input byte. -/
lemma crcByte_linear (a b x y : Nat) :
    crcByte (a ^^^ b) (x ^^^ y) = crcByte a x ^^^ crcByte b y := by
  unfold crcByte
  rw [xor4_rearrange a b x y]
  simp [crcShift_linear]

lemma crc32_cons (c x : Nat) (l : Bytes) : crc32 c (x :: l) = crc32 (crcByte c x) l := rfl

lemma crc32_nil (c : Nat) : crc32 c [] = c := rfl

/-- crc32 is linear: the CRC of a pointwise xor of two equal-length buffers,
from the xor of two seeds, is the xor of the two CRCs. -/
lemma crc32_linear : ∀ (l₁ l₂ : Bytes), l₁.length = l₂.length → ∀ c₁ c₂ : Nat,
    crc32 (c₁ ^^^ c₂) (List.zipWith (· ^^^ ·) l₁ l₂) = crc32 c₁ l₁ ^^^ crc32 c₂ l₂ := by
  intro l₁
  induction l₁ with
  | nil =>
    intro l₂ h c₁ c₂
    cases l₂ with
    | nil => simp [crc32_nil]
    | cons y ys => simp at h
  | cons x xs ih =>
    intro l₂ h c₁ c₂
    cases l₂ with
    | nil => simp at h
    | cons y ys =>
      simp only [List.zipWith, crc32_cons]
      rw [crcByte_linear c₁ c₂ x y]
      exact ih ys (by simpa using h) _ _

/-- A feedback step maps a nonzero 32-bit state to a nonzero 32-bit state. -/
lemma crcShift_ne_zero {c : Nat} (h0 : c ≠ 0) (hlt : c < 2 ^ 32) :
    crcShift c ≠ 0 ∧ crcShift c < 2 ^ 32 := by
  unfold crcShift
  rw [Nat.and_one_is_mod]
  rcases Nat.mod_two_eq_zero_or_one c with h | h
  · rw [h]
    simp only [Nat.xor_zero, if_neg (by omega : ¬ (0 : Nat) = 1)]
    rw [Nat.shiftRight_one]
    omega
  · rw [h]
    have hP : (if (1 : Nat) = 1 then CRC32_POLY_LE else 0) = CRC32_POLY_LE := by norm_num
    rw [hP]
    constructor
    · intro hEq
      have hbit : ((c >>> 1) ^^^ CRC32_POLY_LE).testBit 31 = true := by
        rw [Nat.testBit_xor]
        have hlo : (c >>> 1).testBit 31 = false := by
          apply Nat.testBit_lt_two_pow
          rw [Nat.shiftRight_one]
          omega
        rw [hlo]
        decide
      rw [hEq] at hbit
      simp [Nat.zero_testBit] at hbit
    · apply Nat.xor_lt_two_pow
      · rw [Nat.shiftRight_one]; omega
      · decide

/-- Processing a zero byte preserves nonzero 32-bit states. -/
lemma crcByte_zero_ne_zero {c : Nat} (h0 : c ≠ 0) (hlt : c < 2 ^ 32) :
    crcByte c 0 ≠ 0 ∧ crcByte c 0 < 2 ^ 32 := by
  unfold crcByte
  rw [Nat.xor_zero]
  have h1 := crcShift_ne_zero h0 hlt
  have h2 := crcShift_ne_zero h1.1 h1.2
  have h3 := crcShift_ne_zero h2.1 h2.2
  have h4 := crcShift_ne_zero h3.1 h3.2
  have h5 := crcShift_ne_zero h4.1 h4.2
  have h6 := crcShift_ne_zero h5.1 h5.2
  have h7 := crcShift_ne_zero h6.1 h6.2
  exact crcShift_ne_zero h7.1 h7.2

/-- A run of zero bytes preserves a nonzero 32-bit CRC state. -/
lemma crc32_zeros_ne_zero : ∀ (n : Nat) {c : Nat}, c ≠ 0 → c < 2 ^ 32 →
    crc32 c (List.replicate n 0) ≠ 0 := by
  intro n
  induction n with
  | zero => intro c h0 _; simpa [crc32_nil] using h0
  | succ n ih =>
    intro c h0 hlt
    rw [List.replicate_succ, crc32_cons]
    have := crcByte_zero_ne_zero h0 hlt
    exact ih this.1 this.2

/-- A single-bit byte pushed into the zero state yields a nonzero 32-bit state. -/
lemma crcByte_onebit {r : Nat} (hr : r < 8) :
    crcByte 0 (1 <<< r) ≠ 0 ∧ crcByte 0 (1 <<< r) < 2 ^ 32 := by
  interval_cases r <;> exact ⟨by decide, by decide⟩

/-- The CRC (seed 0) of a buffer that is all zero except one single-bit byte
is nonzero. -/
lemma crc32_onehot_ne_zero : ∀ (n q r : Nat), q < n → r < 8 →
    crc32 0 ((List.replicate n 0).set q (1 <<< r)) ≠ 0 := by
  intro n
  induction n with
  | zero => intro q r hq _; omega
  | succ n ih =>
    intro q r hq hr
    cases q with
    | zero =>
      rw [List.replicate_succ, List.set_cons_zero, crc32_cons]
      have h := crcByte_onebit hr
      exact crc32_zeros_ne_zero n h.1 h.2
    | succ q =>
      rw [List.replicate_succ, List.set_cons_succ, crc32_cons]
      have hz : crcByte 0 0 = 0 := by decide
      rw [hz]
      exact ih q r (by omega) hr

lemma zipWith_xor_zero : ∀ (l : Bytes),
    List.zipWith (· ^^^ ·) l (List.replicate l.length 0) = l := by
  intro l
  induction l with
  | nil => rfl
  | cons x xs ih => simp [List.replicate_succ, ih, Nat.xor_zero]

/-- Pointwise xor with a one-hot buffer is exactly List.set with a flipped byte. -/
lemma zipWith_xor_set_replicate : ∀ (l : Bytes) (q v : Nat), q < l.length →
    List.zipWith (· ^^^ ·) l ((List.replicate l.length 0).set q v) =
      l.set q (l.getD q 0 ^^^ v) := by
  intro l
  induction l with
  | nil => intro q v hq; simp at hq
  | cons x xs ih =>
    intro q v hq
    cases q with
    | zero =>
      simp only [List.length_cons, List.replicate_succ, List.set_cons_zero,
        List.zipWith, List.getD_cons_zero]
      rw [zipWith_xor_zero]
    | succ q =>
      simp only [List.length_cons, List.replicate_succ, List.set_cons_succ,
        List.zipWith, List.getD_cons_succ, Nat.xor_zero]
      rw [ih q v (by simpa using hq)]

lemma xor_ne_left {a b : Nat} (h : b ≠ 0) : a ^^^ b ≠ a := by
  intro hEq
  apply h
  have hx : a ^^^ (a ^^^ b) = a ^^^ a := by rw [hEq]
  rwa [← Nat.xor_assoc, Nat.xor_self, Nat.zero_xor] at hx

/-- C7: for every buffer, verifying the buffer against the checksum computed
over that same buffer succeeds, where compute is CRC-32 with seed 0 and no
extra finalization; and flipping any single bit of the buffer makes
verification against the original checksum fail. -/
theorem c7_crc32_roundtrip_and_bitflip :
    (∀ buf : Bytes, verify buf (crc32 0 buf) = true) ∧
    (∀ (buf : Bytes) (i : Nat), i < 8 * buf.length →
      verify (flipBit i buf) (crc32 0 buf) = false) := by
  constructor
  · intro buf
    simp [verify]
  · intro buf i hi
    have hq : i / 8 < buf.length := by omega
    have hr : i % 8 < 8 := Nat.mod_lt _ (by norm_num)
    have hlen : buf.length =
        ((List.replicate buf.length 0).set (i / 8) (1 <<< (i % 8))).length := by
      simp
    have hflip : flipBit i buf =
        List.zipWith (· ^^^ ·) buf ((List.replicate buf.length 0).set (i / 8) (1 <<< (i % 8))) := by
      rw [zipWith_xor_set_replicate buf (i / 8) (1 <<< (i % 8)) hq]
      rfl
    have hlin := crc32_linear buf
      ((List.replicate buf.length 0).set (i / 8) (1 <<< (i % 8))) hlen 0 0
    have hlin2 : crc32 0 (List.zipWith (· ^^^ ·) buf
        ((List.replicate buf.length 0).set (i / 8) (1 <<< (i % 8)))) =
        crc32 0 buf ^^^ crc32 0 ((List.replicate buf.length 0).set (i / 8) (1 <<< (i % 8))) := by
      simpa using hlin
    have hne := crc32_onehot_ne_zero buf.length (i / 8) (i % 8) hq hr
    have hcrc : crc32 0 (flipBit i buf) ≠ crc32 0 buf := by
      rw [hflip, hlin2]
      exact xor_ne_left hne
    simpa [verify, beq_eq_false_iff_ne] using hcrc

/-- Witness for C7 at a concrete two-byte buffer and bit index 5. -/
theorem c7_crc32_witness :
    (5 < 8 * List.length [171, 205] ∧
      verify (flipBit 5 [171, 205]) (crc32 0 [171, 205]) = false) ∧
    verify [171, 205] (crc32 0 [171, 205]) = true :=
  ⟨⟨by decide, c7_crc32_roundtrip_and_bitflip.2 [171, 205] 5 (by decide)⟩,
    c7_crc32_roundtrip_and_bitflip.1 [171, 205]⟩

/-! ## Data model of the driver -/

/-- REQ_OP_READ. -/
def REQ_OP_READ : Nat := 0

/-- REQ_OP_WRITE. -/
def REQ_OP_WRITE : Nat := 1

/-- BLK_QC_T_NONE, the cookie ssr_submit_bio initializes ret with. -/
def BLK_QC_T_NONE : Nat := 4294967295

/-- Modelled from the spec: KERNEL_SECTOR_SIZE comes from the assignment
header ssr.h, which is not under src/; the spec fixes the sector size at 512
bytes. -/
def KERNEL_SECTOR_SIZE : Nat := 512

/-- A bio_vec: a page (by identifier), bv_offset and bv_len. -/
structure BioVec where
  page : Nat
  offset : Nat
  len : Nat
deriving DecidableEq

/-- A bio: bi_disk (0 = vdb, 1 = vdc), bi_opf, bi_iter.bi_sector, bi_status
and the segment list. -/
structure Bio where
  disk : Nat
  opf : Nat
  sector : Nat
  status : Nat
  segs : List BioVec
deriving DecidableEq

/-- The page store: contents of each page, by page identifier. -/
abbrev Mem := Nat → Bytes

/-- len bytes of a buffer starting at off (a memcpy source range). -/
def readAt (buf : Bytes) (off len : Nat) : Bytes := (buf.drop off).take len

/-- Overwrite buf at off with src (a memcpy destination). -/
def writeAt (buf : Bytes) (off : Nat) (src : Bytes) : Bytes :=
  buf.take off ++ src ++ buf.drop (off + src.length)

/-- Update one page of the page store. -/
def setPage (mem : Mem) (p : Nat) (b : Bytes) : Mem :=
  fun q => if q = p then b else mem q

/-- memcpy(dst + dstOff, src + srcOff, n) between (possibly equal) pages. -/
def memcpyPages (mem : Mem) (dstPage dstOff srcPage srcOff n : Nat) : Mem :=
  setPage mem dstPage (writeAt (mem dstPage) dstOff (readAt (mem srcPage) srcOff n))

/-- The two physical devices as whole byte arrays. -/
structure Disks where
  vdb : Bytes
  vdc : Bytes
deriving DecidableEq

/-- Select a device by the bi_disk index. -/
def getDisk (d : Disks) (i : Nat) : Bytes := if i = 0 then d.vdb else d.vdc

/-- Replace a device, selected by the bi_disk index. -/
def setDisk (d : Disks) (i : Nat) (b : Bytes) : Disks :=
  if i = 0 then { d with vdb := b } else { d with vdc := b }

/-- bio_data_dir: op_is_write(op) selects WRITE (1), otherwise READ (0). -/
def bio_data_dir (b : Bio) : Nat := if b.opf &&& 1 = 1 then 1 else 0

/-- The transfer loop of submit_bio_wait: segments map to consecutive device
bytes starting at the byte position of the bio sector.  A write copies page
bytes to the device, a read copies device bytes into the page. -/
def submitSegs (op : Nat) (mem : Mem) (disk : Bytes) (pos : Nat) : List BioVec → Mem × Bytes
  | [] => (mem, disk)
  | seg :: rest =>
    if op = REQ_OP_WRITE then
      submitSegs op mem
        (writeAt disk pos (readAt (mem seg.page) seg.offset seg.len)) (pos + seg.len) rest
    else
      submitSegs op
        (setPage mem seg.page (writeAt (mem seg.page) seg.offset (readAt disk pos seg.len)))
        disk (pos + seg.len) rest

/-- submit_bio_wait against one of the two physical devices, selected by the
bi_disk field of the bio. -/
def submit_bio_wait (mem : Mem) (disks : Disks) (bio : Bio) : Mem × Disks :=
  let r := submitSegs bio.opf mem (getDisk disks bio.disk)
    (bio.sector * KERNEL_SECTOR_SIZE) bio.segs
  (r.1, setDisk disks bio.disk r.2)

/-- The segment loop of process_device (src/ssr.c lines 90 to 130).  The loop
pairs each data segment with the crc bio segment at the same iterator
position.  On a CRC mismatch the C code returns from the whole function,
dropping the remaining segments.  On the read branch the source maps
data_bvec.bv_page a second time under the name buffer_from_up, so both
memcpy destinations of that branch are the data page itself. -/
def processSegs (dir : Nat) (mem : Mem) : List (BioVec × BioVec) → Mem
  | [] => mem
  | (data_bvec, crc32_bvec) :: rest =>
    let size := data_bvec.len
    let data_offset := data_bvec.offset
    let crc32_offset := crc32_bvec.offset
    let crc_vdb := crc32 0 (readAt (mem data_bvec.page) data_offset size)
    let crc_vdc := crc32 0 (readAt (mem crc32_bvec.page) crc32_offset size)
    if crc_vdb ≠ crc_vdc then mem
    else
      let mem1 :=
        if dir = REQ_OP_READ then
          let m := memcpyPages mem data_bvec.page data_offset data_bvec.page data_offset size
          memcpyPages m data_bvec.page crc32_offset crc32_bvec.page crc32_offset size
        else if dir = REQ_OP_WRITE then
          let m := memcpyPages mem data_bvec.page data_offset data_bvec.page data_offset size
          memcpyPages m crc32_bvec.page crc32_offset data_bvec.page crc32_offset size
        else mem
      processSegs dir mem1 rest

/-- process_device: iterate the data bio segments, pairing them with the crc
bio segments through the shared iterator; the upper bio contributes only the
direction. -/
def process_device (bio_from_up data_bio_from_down crc32_bio_from_down : Bio)
    (mem : Mem) : Mem :=
  processSegs (bio_data_dir bio_from_up) mem
    (data_bio_from_down.segs.zip crc32_bio_from_down.segs)

/-- struct ssr_work. -/
structure SsrWork where
  buffer_from_up : Nat × Nat
  bio_from_up : Bio
  data_bio_from_down : Bio
  crc32_bio_from_down : Bio
deriving DecidableEq

/-- System state: the page store, the two devices and the list of bios
completed via bio_endio. -/
structure SysState where
  mem : Mem
  disks : Disks
  completions : List Bio

/-- ssr_handle_requests: point both down bios at vdb and run process_device,
repoint them at vdc and run process_device again, then submit first the crc
bio and then the data bio (both now directed at vdc) and complete the upper
bio with bio_endio.  bi_status is never assigned anywhere, so the completed
bio carries its initial status. -/
def ssr_handle_requests (st : SysState) (w : SsrWork) : SysState :=
  let data0 : Bio := { w.data_bio_from_down with disk := 0 }
  let crc0 : Bio := { w.crc32_bio_from_down with disk := 0 }
  let m1 := process_device w.bio_from_up data0 crc0 st.mem
  let data1 : Bio := { data0 with disk := 1 }
  let crc1 : Bio := { crc0 with disk := 1 }
  let m2 := process_device w.bio_from_up data1 crc1 m1
  let r1 := submit_bio_wait m2 st.disks crc1
  let r2 := submit_bio_wait r1.1 r1.2 data1
  { mem := r2.1, disks := r2.2, completions := st.completions ++ [w.bio_from_up] }

/-- Result of ssr_submit_bio: the work items queued on the single-threaded
workqueue, the bios completed directly on the submission path, and the
returned cookie. -/
structure SubmitResult where
  queued : List SsrWork
  ended : List Bio
  ret : Nat
deriving DecidableEq

/-- ssr_submit_bio (src/ssr.c lines 173 to 256).  The segment loop sets the
down bio sectors and operations, allocates the two down pages, adds them to
the down bios, queues one work item and returns from inside its first
iteration; with no segments the fall-through path ends the bio on the spot.
dataPg and crcPg are the identifiers of the pages alloc_page returns; their
contents are whatever the page store holds for them. -/
def ssr_submit_bio (dataPg crcPg : Nat) (bio_from_up : Bio) : SubmitResult :=
  let dir := bio_data_dir bio_from_up
  match bio_from_up.segs with
  | [] => { queued := [], ended := [bio_from_up], ret := BLK_QC_T_NONE }
  | bvec :: _ =>
    let sector := bio_from_up.sector
    let offset := bvec.offset
    let len := bvec.len
    let data_bio_from_down : Bio :=
      { disk := 0, opf := dir, sector := sector, status := 0,
        segs := [{ page := dataPg, offset := offset, len := len }] }
    let crc32_bio_from_down : Bio :=
      { disk := 0, opf := dir, sector := sector, status := 0,
        segs := [{ page := crcPg, offset := offset, len := len }] }
    let w : SsrWork :=
      { buffer_from_up := (bvec.page, offset), bio_from_up := bio_from_up,
        data_bio_from_down := data_bio_from_down,
        crc32_bio_from_down := crc32_bio_from_down }
    { queued := [w], ended := [], ret := BLK_QC_T_NONE }

/-- One full logical request: submit, then run the queued work items in order
on the single worker context. -/
def runRequest (mem : Mem) (disks : Disks) (up : Bio) (dataPg crcPg : Nat) : SysState :=
  let r := ssr_submit_bio dataPg crcPg up
  r.queued.foldl ssr_handle_requests { mem := mem, disks := disks, completions := r.ended }

/-! ## Frame lemmas for the read path -/

lemma submitSegs_read_disk : ∀ (segs : List BioVec) (op : Nat) (mem : Mem) (disk : Bytes)
    (pos : Nat), op ≠ REQ_OP_WRITE → (submitSegs op mem disk pos segs).2 = disk := by
  intro segs
  induction segs with
  | nil => intro op mem disk pos _; rfl
  | cons s rest ih =>
    intro op mem disk pos h
    simp only [submitSegs]
    rw [if_neg h]
    exact ih op _ disk _ h

lemma setDisk_getDisk (d : Disks) (i : Nat) : setDisk d i (getDisk d i) = d := by
  cases d with
  | mk b c => by_cases h : i = 0 <;> simp [setDisk, getDisk, h]

lemma submit_bio_wait_read_disks (mem : Mem) (disks : Disks) (bio : Bio)
    (h : bio.opf ≠ REQ_OP_WRITE) : (submit_bio_wait mem disks bio).2 = disks := by
  simp only [submit_bio_wait]
  rw [submitSegs_read_disk _ _ _ _ _ h]
  exact setDisk_getDisk disks bio.disk

lemma ssr_handle_requests_read_disks (st : SysState) (w : SsrWork)
    (h1 : w.crc32_bio_from_down.opf ≠ REQ_OP_WRITE)
    (h2 : w.data_bio_from_down.opf ≠ REQ_OP_WRITE) :
    (ssr_handle_requests st w).disks = st.disks := by
  have hc : ({ { w.crc32_bio_from_down with disk := 0 } with disk := 1 } : Bio).opf
      ≠ REQ_OP_WRITE := by simpa using h1
  have hd : ({ { w.data_bio_from_down with disk := 0 } with disk := 1 } : Bio).opf
      ≠ REQ_OP_WRITE := by simpa using h2
  simp only [ssr_handle_requests]
  rw [submit_bio_wait_read_disks _ _ _ hd, submit_bio_wait_read_disks _ _ _ hc]

/-- C8: a read request never writes to either mirror: the code submits the two
down bios with the read operation only, so for every read the final device
contents equal the initial ones (in particular repeated reads of a healthy
sector leave both mirrors' data and checksum regions unchanged). -/
theorem c8_read_no_mirror_writes (mem : Mem) (disks : Disks) (up : Bio) (dataPg crcPg : Nat)
    (h : up.opf = REQ_OP_READ) :
    (runRequest mem disks up dataPg crcPg).disks = disks := by
  have hdir : bio_data_dir up = 0 := by
    simp [bio_data_dir, h, REQ_OP_READ]
  cases hsegs : up.segs with
  | nil => simp [runRequest, ssr_submit_bio, hsegs]
  | cons s rest =>
    simp only [runRequest, ssr_submit_bio, hsegs, List.foldl]
    rw [ssr_handle_requests_read_disks]
    · simp [hdir, REQ_OP_WRITE]
    · simp [hdir, REQ_OP_WRITE]

/-- Concrete scenario for the C8 witness. -/
def memS8 : Mem := fun _ => [0, 0, 0, 0]

/-- Concrete devices for the C8 witness. -/
def disksS8 : Disks := ⟨[1, 2, 3, 4], [5, 6, 7, 8]⟩

/-- Concrete read bio for the C8 witness. -/
def upS8 : Bio := ⟨0, REQ_OP_READ, 0, 0, [⟨3, 0, 4⟩]⟩

/-- Witness for C8 at a concrete read request. -/
theorem c8_read_no_mirror_writes_witness :
    upS8.opf = REQ_OP_READ ∧ (runRequest memS8 disksS8 upS8 1 2).disks = disksS8 :=
  ⟨rfl, c8_read_no_mirror_writes memS8 disksS8 upS8 1 2 rfl⟩

/-- C9: ssr_submit_bio queues exactly one work item and returns from inside
the first iteration of its segment loop: nothing is completed as failed on
the submission path, the cookie is the initial BLK_QC_T_NONE, and the queued
down bios are identical to those produced from the request truncated to its
first segment, so segments after the first are never examined. -/
theorem c9_first_segment_only (dataPg crcPg : Nat) (up : Bio) (s : BioVec)
    (rest : List BioVec) (hsegs : up.segs = s :: rest) :
    (ssr_submit_bio dataPg crcPg up).queued.length = 1 ∧
    (ssr_submit_bio dataPg crcPg up).ended = [] ∧
    (ssr_submit_bio dataPg crcPg up).ret = BLK_QC_T_NONE ∧
    (ssr_submit_bio dataPg crcPg up).queued.map
        (fun w => (w.data_bio_from_down, w.crc32_bio_from_down)) =
      (ssr_submit_bio dataPg crcPg { up with segs := [s] }).queued.map
        (fun w => (w.data_bio_from_down, w.crc32_bio_from_down)) := by
  simp [ssr_submit_bio, hsegs, bio_data_dir]

/-- Concrete two-segment write bio for the C9 witness. -/
def upS9 : Bio := ⟨0, REQ_OP_WRITE, 2, 0, [⟨70, 0, 512⟩, ⟨71, 0, 512⟩]⟩

/-- Witness for C9 at a concrete two-segment request. -/
theorem c9_first_segment_only_witness :
    upS9.segs = ⟨70, 0, 512⟩ :: [⟨71, 0, 512⟩] ∧
    ((ssr_submit_bio 72 73 upS9).queued.length = 1 ∧
      (ssr_submit_bio 72 73 upS9).ended = [] ∧
      (ssr_submit_bio 72 73 upS9).ret = BLK_QC_T_NONE ∧
      (ssr_submit_bio 72 73 upS9).queued.map
          (fun w => (w.data_bio_from_down, w.crc32_bio_from_down)) =
        (ssr_submit_bio 72 73 { upS9 with segs := [⟨70, 0, 512⟩] }).queued.map
          (fun w => (w.data_bio_from_down, w.crc32_bio_from_down))) :=
  ⟨rfl, c9_first_segment_only 72 73 upS9 ⟨70, 0, 512⟩ [⟨71, 0, 512⟩] rfl⟩

/-- C6 (amended): ssr_submit_bio performs no capacity validation at all: a
request whose starting sector lies beyond any capacity bound is still queued
for processing (one work item, nothing completed as failed, cookie
BLK_QC_T_NONE); no OutOfRange rejection exists in the code. -/
theorem c6_no_validation (cap dataPg crcPg : Nat) (up : Bio) (s : BioVec)
    (rest : List BioVec) (hsegs : up.segs = s :: rest) (_hcap : cap < up.sector) :
    (ssr_submit_bio dataPg crcPg up).queued.length = 1 ∧
    (ssr_submit_bio dataPg crcPg up).ended = [] ∧
    (ssr_submit_bio dataPg crcPg up).ret = BLK_QC_T_NONE := by
  simp [ssr_submit_bio, hsegs]

/-- Out-of-range write bio for the C6 counterexample: one 512-byte segment at
sector 100, far beyond the four-sector capacity of the spec scenario. -/
def upS6 : Bio := ⟨0, REQ_OP_WRITE, 100, 0, [⟨60, 0, 512⟩]⟩

/-- Counterexample for C6: a request whose sector (100) exceeds the capacity
(4 sectors in the spec scenario geometry) is queued for the worker instead of
failing synchronously with OutOfRange before any enqueue. -/
theorem c6_out_of_range_queued :
    (4 : Nat) < upS6.sector ∧
    (ssr_submit_bio 61 62 upS6).queued.length = 1 ∧
    (ssr_submit_bio 61 62 upS6).ended = [] ∧
    (ssr_submit_bio 61 62 upS6).ret = BLK_QC_T_NONE := by decide

/-- Concrete out-of-range bio for the C6 witness. -/
def upS6w : Bio := ⟨0, REQ_OP_WRITE, 50, 0, [⟨5, 0, 512⟩]⟩

/-- Witness for the amended C6 theorem at a concrete request. -/
theorem c6_no_validation_witness :
    (upS6w.segs = ⟨5, 0, 512⟩ :: [] ∧ 3 < upS6w.sector) ∧
    ((ssr_submit_bio 1 2 upS6w).queued.length = 1 ∧
      (ssr_submit_bio 1 2 upS6w).ended = [] ∧
      (ssr_submit_bio 1 2 upS6w).ret = BLK_QC_T_NONE) :=
  ⟨⟨rfl, by decide⟩, c6_no_validation 3 1 2 upS6w ⟨5, 0, 512⟩ [] rfl (by decide)⟩

/-! ## Concrete code-behavior evaluations for the read/write protocol claims -/

/-- Page store for the C1 scenario: page 10 is the caller's read buffer. -/
def memS1 : Mem := fun p => if p = 10 then [5, 5, 5, 5] else [0, 0, 0, 0]

/-- Devices for the C1 scenario: vdb holds corrupted sector-0 bytes that do
not match its stored checksum, vdc holds the healthy copy. -/
def disksS1 : Disks := ⟨[9, 8, 7, 6], [1, 2, 3, 4]⟩

/-- Read bio of the C1 scenario, one four-byte segment at sector 0. -/
def upS1 : Bio := ⟨0, REQ_OP_READ, 0, 0, [⟨10, 0, 4⟩]⟩

/-- C1 evaluated on the code: with exactly one corrupted mirror, the read
leaves the corrupted mirror byte-identical to its pre-read state (no repair
is ever written to vdb), and the caller's buffer still holds its old
contents rather than the healthy mirror's data. -/
theorem c1_read_repairs_nothing :
    (runRequest memS1 disksS1 upS1 11 12).disks.vdb = [9, 8, 7, 6] ∧
    (runRequest memS1 disksS1 upS1 11 12).mem 10 = [5, 5, 5, 5] ∧
    ([5, 5, 5, 5] : Bytes) ≠ [1, 2, 3, 4] := by decide

/-- Page store for the C2 scenario: page 10 holds the written payload, page
20 is the later read's caller buffer. -/
def memS2 : Mem := fun p =>
  if p = 10 then [5, 6, 7, 8] else if p = 20 then [9, 9, 9, 9] else [0, 0, 0, 0]

/-- Devices for the C2 scenario. -/
def disksS2 : Disks := ⟨[17, 17, 17, 17], [1, 2, 3, 4]⟩

/-- Write bio of the C2 scenario carrying payload page 10. -/
def upS2w : Bio := ⟨0, REQ_OP_WRITE, 0, 0, [⟨10, 0, 4⟩]⟩

/-- Read-back bio of the C2 scenario reading into page 20. -/
def upS2r : Bio := ⟨0, REQ_OP_READ, 0, 0, [⟨20, 0, 4⟩]⟩

/-- State after the C2 write request. -/
def stS2 : SysState := runRequest memS2 disksS2 upS2w 11 12

/-- State after the C2 read-back request. -/
def stS2r : SysState := runRequest stS2.mem stS2.disks upS2r 21 22

/-- C2 evaluated on the code: after writing payload 5,6,7,8 to sector 0 and
reading sector 0 back with no intervening corruption, the caller's read
buffer still holds its prior contents 9,9,9,9, not the payload: the write
path never copies the caller's payload into the down pages, and the read
path never copies device data into the caller's buffer. -/
theorem c2_write_read_roundtrip_fails :
    stS2r.mem 20 = [9, 9, 9, 9] ∧ ([9, 9, 9, 9] : Bytes) ≠ [5, 6, 7, 8] := by decide

/-- Page store for the C3 scenario: page 40 holds the caller's payload. -/
def memS3 : Mem := fun p => if p = 40 then [5, 6, 7, 8] else [0, 0, 0, 0]

/-- Devices for the C3 scenario. -/
def disksS3 : Disks := ⟨[17, 17, 17, 17], [1, 2, 3, 4]⟩

/-- Write bio of the C3 scenario. -/
def upS3 : Bio := ⟨0, REQ_OP_WRITE, 0, 0, [⟨40, 0, 4⟩]⟩

/-- C3 evaluated on the code: a write leaves mirror vdb byte-identical to its
pre-write contents (the down bios are submitted only after bi_disk was
repointed at vdc), and what reaches vdc is the freshly allocated down page
contents, not the caller's payload 5,6,7,8. -/
theorem c3_write_misses_mirror_a :
    (runRequest memS3 disksS3 upS3 41 42).disks.vdb = [17, 17, 17, 17] ∧
    (runRequest memS3 disksS3 upS3 41 42).disks.vdc = [0, 0, 0, 0] ∧
    ([5, 6, 7, 8] : Bytes) ≠ [0, 0, 0, 0] := by decide

/-- Page store for the C4 scenario: page 30 is the caller's read buffer. -/
def memS4 : Mem := fun p => if p = 30 then [8, 8, 8, 8] else [0, 0, 0, 0]

/-- Devices for the C4 scenario: both mirrors hold sector-0 bytes that fail
verification against their stored checksums. -/
def disksS4 : Disks := ⟨[3, 1, 4, 1], [5, 9, 2, 6]⟩

/-- Read bio of the C4 scenario. -/
def upS4 : Bio := ⟨0, REQ_OP_READ, 0, 0, [⟨30, 0, 4⟩]⟩

/-- C4 evaluated on the code: with both mirrors corrupted, the read completes
via bio_endio with its status still 0 (success) — no SectorUnrecoverable or
any other error is ever delivered, because bi_status is never assigned and
the CRC comparison inspects two freshly allocated pages, not the mirrors. -/
theorem c4_no_error_on_double_corruption :
    (runRequest memS4 disksS4 upS4 31 32).completions = [upS4] ∧
    upS4.status = 0 ∧
    (runRequest memS4 disksS4 upS4 31 32).disks = disksS4 := by decide

/-- Write bio of the C5 scenario: one 512-byte segment at logical sector 7. -/
def upS5 : Bio := ⟨0, REQ_OP_WRITE, 7, 0, [⟨50, 0, 512⟩]⟩

/-- C5 evaluated on the code: the checksum bio built for sector 7 targets
device sector 7 with the same intra-page offset and length as the data bio,
i.e. byte offset 7 × 512 of the mirror — not data_region_size + 7 × 4.  The
data and checksum accesses for a sector therefore coincide instead of
hitting two disjoint regions at distinct offsets. -/
theorem c5_checksum_io_targets_data_sector :
    (ssr_submit_bio 51 52 upS5).queued.map
        (fun w => (w.data_bio_from_down.sector,
          w.data_bio_from_down.segs.map (fun s => (s.offset, s.len)))) = [(7, [(0, 512)])] ∧
    (ssr_submit_bio 51 52 upS5).queued.map
        (fun w => (w.crc32_bio_from_down.sector,
          w.crc32_bio_from_down.segs.map (fun s => (s.offset, s.len)))) = [(7, [(0, 512)])] := by
  decide
